import Mathlib

/-!
Formal model of the emp-task-mngr web client.

Each definition below is a shallow embedding of a function or state shape of
the client source.  Event handlers that await a server response are embedded
as pure state-transition functions taking the response outcome
(`Except` of the server error detail) as an argument; React `useState` pairs
become fields of explicit page-state structures.  Purely presentational
state (dialog-open flags, spinners) is not part of any claim and is omitted.
-/

namespace EmpTaskMngr

/-- Status enumeration of the `Task` interface in `src/services/api.ts`:
`'pending' | 'ongoing' | 'completed'`. -/
inductive TaskStatus
  | pending
  | ongoing
  | completed
deriving DecidableEq

/-- The `Task` interface of `src/services/api.ts` (id, title, optional
description, status, optional due date, optional assigned employee id,
created/updated timestamps).  The optional embedded `employee` snapshot is
display-only and mutually recursive with `Employee`; it is omitted here. -/
structure Task where
  id : Nat
  title : String
  description : Option String
  status : TaskStatus
  due_date : Option String
  employee_id : Option Nat
  created_at : String
  updated_at : String
deriving DecidableEq

/-- The `Employee` interface of `src/services/api.ts`. -/
structure Employee where
  id : Nat
  name : String
  email : String
  department : String
  position : String
  created_at : String
  tasks : Option (List Task)
deriving DecidableEq

/-- The `TokenResponse` interface of `src/services/api.ts`. -/
structure TokenResponse where
  access_token : String
  token_type : String
deriving DecidableEq

/-- A rejected HTTP request as the client observes it: `error.response?.status`
(absent on pure network failure) and `error.response?.data?.detail`. -/
structure HttpFailure where
  status : Option Nat
  detail : Option String
deriving DecidableEq

/-- The browser-level state the api layer touches: the value stored in
`localStorage` under the key `token`, and `window.location.href`. -/
structure BrowserState where
  token : Option String
  location : String
deriving DecidableEq

/-- JavaScript `String.prototype.trim`, modeled on the character list:
whitespace is stripped from both ends. -/
def jsTrim (s : String) : String :=
  String.mk
    (((s.data.dropWhile Char.isWhitespace).reverse.dropWhile
        Char.isWhitespace).reverse)

/-- JavaScript `a || b` on strings with an optional left operand: the empty
string is falsy, so `undefined` and `""` both fall through to the fallback. -/
def jsStringOr (s : Option String) (fallback : String) : String :=
  match s with
  | some d => if d = "" then fallback else d
  | none => fallback

/-- Outcome of the axios response-error interceptor: it either rejects the
promise (propagating the error to the caller) or would re-issue the request.
The code always rejects; `retryRequest` exists to make that distinction a
stated fact rather than a tautology. -/
inductive InterceptorOutcome
  | rejectPromise
  | retryRequest
deriving DecidableEq

/-- The response-error interceptor of `apiClient`
(`src/services/api.ts` lines 24-33): on a 401 response it removes the stored
token and sets `window.location.href = '/'` (the login route per `App.tsx`);
in every case it returns `Promise.reject(error)`. -/
def interceptResponseError (status : Option Nat) (b : BrowserState) :
    BrowserState × InterceptorOutcome :=
  if status = some 401 then
    ({ token := none, location := "/" }, InterceptorOutcome.rejectPromise)
  else
    (b, InterceptorOutcome.rejectPromise)

/-- The transition buttons `TaskPage` can render on a task card. -/
inductive TransitionButton
  | start
  | complete
  | reset
deriving DecidableEq

/-- The status each button requests via `handleStatusUpdate`
(TaskPage lines 268-295): Start sends `ongoing`, Complete sends `completed`,
Reset sends `pending`. -/
def TransitionButton.target : TransitionButton → TaskStatus
  | TransitionButton.start => TaskStatus.ongoing
  | TransitionButton.complete => TaskStatus.completed
  | TransitionButton.reset => TaskStatus.pending

/-- The stack of status-transition buttons rendered for a task card
(TaskPage lines 266-297): the stack exists only when the status is not
`completed`; inside it, Start renders when the status is `pending`, and
Complete and Reset each render when the status is `ongoing`. -/
def taskCardButtons (t : Task) : List TransitionButton :=
  if t.status ≠ TaskStatus.completed then
    (if t.status = TaskStatus.pending then [TransitionButton.start] else []) ++
    (if t.status = TaskStatus.ongoing then [TransitionButton.complete] else []) ++
    (if t.status = TaskStatus.ongoing then [TransitionButton.reset] else [])
  else []

/-- The login flow of `ApiService.login` (`src/services/api.ts` lines 106-125)
over the browser state.  The request is issued through bare `axios.post`, not
through the intercepted `apiClient`, so no response interceptor runs: a
rejected request (whatever its status) leaves the browser state untouched and
the error propagates unchanged; on success the returned access token is
written to storage (`localStorage.setItem` of key `token`) and the response
data is returned. -/
def ApiService.login (b : BrowserState)
    (serverResult : Except HttpFailure TokenResponse) :
    BrowserState × Except HttpFailure TokenResponse :=
  match serverResult with
  | Except.ok tr => ({ b with token := some tr.access_token }, Except.ok tr)
  | Except.error e => (b, Except.error e)

/-- Application-level session state: the `isAuthenticated` flag of
`AuthProvider` together with the browser state it sits over. -/
structure AppState where
  authenticated : Bool
  browser : BrowserState
deriving DecidableEq

/-- The `login` function of `AuthProvider` (AuthContext lines 41-48): it
awaits `apiService.login`; on success it sets `isAuthenticated` to true; on
failure it re-throws the error, leaving the flag untouched. -/
def AuthProvider.login (st : AppState)
    (serverResult : Except HttpFailure TokenResponse) :
    AppState × Except HttpFailure Unit :=
  match ApiService.login st.browser serverResult with
  | (b, Except.ok _) => ({ authenticated := true, browser := b }, Except.ok ())
  | (b, Except.error e) => ({ st with browser := b }, Except.error e)

/-- The `useState` pairs of `TaskPage` that the handlers below touch:
the task list and the page-level error banner text. -/
structure TaskPageState where
  tasks : List Task
  error : String
deriving DecidableEq

/-- The `handleDeleteTask` handler of `TaskPage` (lines 128-139):
an unconfirmed `window.confirm` returns early; otherwise, on server success
the task is filtered out of the local list by id, and on failure the list is
left alone and the error banner is set to the server detail or the fallback
message. -/
def handleDeleteTask (confirmed : Bool) (st : TaskPageState) (task : Task)
    (result : Except (Option String) Unit) : TaskPageState :=
  if confirmed then
    match result with
    | Except.ok _ =>
        { st with tasks := st.tasks.filter (fun t => t.id ≠ task.id) }
    | Except.error detail =>
        { st with error := jsStringOr detail "Failed to delete task" }
  else st

/-- The `handleStatusUpdate` handler of `TaskPage` (lines 141-148): it sends
`updateTask` for `task.id` with a payload holding only the new status; on
success it maps the local list, replacing each entry whose id equals
`task.id` with the server-returned task; on failure it only sets the error
banner.  The local list is touched only after the response arrives.
`newStatus` shapes the request payload, not the local reconciliation. -/
def handleStatusUpdate (st : TaskPageState) (task : Task)
    (newStatus : TaskStatus) (result : Except (Option String) Task) :
    TaskPageState :=
  match result with
  | Except.ok updated =>
      { st with
        tasks := st.tasks.map (fun t => if t.id = task.id then updated else t) }
  | Except.error detail =>
      { st with error := jsStringOr detail "Failed to update task status" }

/-- The task form fields of `TaskPage` (`TaskFormData`, lines 33-38), with the
empty-string sentinel for an unassigned employee and the absent due date both
rendered as `none`. -/
structure TaskFormData where
  title : String
  description : String
  employee_id : Option Nat
  due_date : Option String
deriving DecidableEq

/-- The `validateForm` of `TaskPage` (lines 84-91): the only check is that the
trimmed title is non-empty; the error text recorded for a failing title. -/
def taskFormErrors (f : TaskFormData) : Option String :=
  if jsTrim f.title = "" then some "Title is required" else none

/-- TaskPage `validateForm` result: true when the errors object stays empty. -/
def taskFormValid (f : TaskFormData) : Bool :=
  (taskFormErrors f).isNone

/-- The `handleSubmit` handler of `TaskPage` (lines 150-176): a failing
`validateForm` returns before any request.  Otherwise, when `editingTask` is
set the server-returned task replaces each list entry whose id equals the
editing target id; when it is not set the server-returned task is appended.
On success the error banner is cleared; on failure only the banner is set. -/
def TaskPage.handleSubmit (st : TaskPageState) (editingTask : Option Task)
    (form : TaskFormData) (result : Except (Option String) Task) :
    TaskPageState :=
  if taskFormValid form then
    match result with
    | Except.ok returned =>
        match editingTask with
        | some et =>
            { st with
              tasks := st.tasks.map (fun t => if t.id = et.id then returned else t)
              error := "" }
        | none =>
            { st with tasks := st.tasks ++ [returned], error := "" }
    | Except.error detail =>
        { st with error := jsStringOr detail "Failed to save task" }
  else st

/-- The `useState` pairs of `EmployeePage` the handlers below touch. -/
structure EmployeePageState where
  employees : List Employee
  error : String
deriving DecidableEq

/-- The employee form fields (`EmployeeFormData`, EmployeePage lines 23-28). -/
structure EmployeeFormData where
  name : String
  email : String
  department : String
  position : String
deriving DecidableEq

/-- The per-field error messages `validateForm` can record. -/
structure EmployeeFormErrors where
  name : Option String
  email : Option String
  department : Option String
  position : Option String
deriving DecidableEq

/-- Containment test of the JavaScript regex used on the employee email
(EmployeePage line 68): `test` succeeds iff some substring matches
nonspace-run, at-sign, nonspace-run, dot, nonspace-run.  Equivalently there
are positions i of an at-sign and j of a dot with a non-whitespace character
directly before i, at least one position strictly between i and j all of
which hold non-whitespace characters, and a non-whitespace character directly
after j. -/
def emailRegexTest (s : String) : Bool :=
  let cs := s.data
  let n := cs.length
  (List.range n).any (fun i =>
    (List.range n).any (fun j =>
      decide (0 < i) && decide (i + 1 < j) && decide (j + 1 < n) &&
      (cs.getD i ' ' == '@') && (cs.getD j ' ' == '.') &&
      !(cs.getD (i - 1) ' ').isWhitespace &&
      ((List.range n).all (fun k =>
        !(decide (i < k) && decide (k < j)) || !(cs.getD k ' ').isWhitespace)) &&
      !(cs.getD (j + 1) ' ').isWhitespace))

/-- The `validateForm` of `EmployeePage` (lines 63-74): required-field checks
on the trimmed name, email, department and position, and the loose regex
check on the email when it is non-empty. -/
def validateEmployeeForm (f : EmployeeFormData) : EmployeeFormErrors :=
  { name := if jsTrim f.name = "" then some "Name is required" else none
    email :=
      if jsTrim f.email = "" then some "Email is required"
      else if ¬ emailRegexTest f.email then some "Invalid email format"
      else none
    department :=
      if jsTrim f.department = "" then some "Department is required" else none
    position :=
      if jsTrim f.position = "" then some "Position is required" else none }

/-- EmployeePage `validateForm` boolean result: the errors object has no key,
so every field error is absent. -/
def employeeFormValid (f : EmployeeFormData) : Bool :=
  (validateEmployeeForm f).name.isNone &&
  (validateEmployeeForm f).email.isNone &&
  (validateEmployeeForm f).department.isNone &&
  (validateEmployeeForm f).position.isNone

/-- The `handleDeleteEmployee` handler of `EmployeePage` (lines 95-106),
mirror image of `handleDeleteTask`. -/
def handleDeleteEmployee (confirmed : Bool) (st : EmployeePageState)
    (emp : Employee) (result : Except (Option String) Unit) :
    EmployeePageState :=
  if confirmed then
    match result with
    | Except.ok _ =>
        { st with employees := st.employees.filter (fun e => e.id ≠ emp.id) }
    | Except.error detail =>
        { st with error := jsStringOr detail "Failed to delete employee" }
  else st

/-- The `handleSubmit` handler of `EmployeePage` (lines 108-131): a failing
`validateForm` returns before any request; otherwise when `editingEmployee`
is set the server-returned employee replaces each list entry whose id equals
the editing target id, and when it is not set the server-returned employee is
appended; on success the error banner is cleared, on failure it is set. -/
def EmployeePage.handleSubmit (st : EmployeePageState)
    (editingEmployee : Option Employee) (form : EmployeeFormData)
    (result : Except (Option String) Employee) : EmployeePageState :=
  if employeeFormValid form then
    match result with
    | Except.ok returned =>
        match editingEmployee with
        | some emp =>
            { st with
              employees :=
                st.employees.map (fun e => if e.id = emp.id then returned else e)
              error := "" }
        | none =>
            { st with employees := st.employees ++ [returned], error := "" }
    | Except.error detail =>
        { st with error := jsStringOr detail "Failed to save employee" }
  else st

/-! Concrete sample values used to instantiate the theorems below. -/

/-- A sample browser state with a stored token, sitting on a protected page. -/
def browser0 : BrowserState := { token := some "tok123", location := "/tasks" }

/-- A sample pending task. -/
def taskA : Task :=
  { id := 1, title := "Write report", description := none,
    status := TaskStatus.pending, due_date := none, employee_id := none,
    created_at := "2024-01-01", updated_at := "2024-01-01" }

/-- A second sample task, ongoing. -/
def taskB : Task :=
  { taskA with id := 2, title := "Review code", status := TaskStatus.ongoing }

/-- The server response to starting `taskA`: same id, new status. -/
def taskAStarted : Task :=
  { taskA with status := TaskStatus.ongoing, updated_at := "2024-01-02" }

/-- A server response carrying an id different from every local entry,
exercising the target-id reconciliation. -/
def taskRenumbered : Task :=
  { taskA with id := 42, status := TaskStatus.ongoing }

/-- A freshly created task as returned by the server. -/
def taskFresh : Task :=
  { taskA with id := 3, title := "New task" }

/-- The server response to editing the fields of `taskB`. -/
def taskBEdited : Task := { taskB with title := "Review code again" }

/-- A sample employee. -/
def empA : Employee :=
  { id := 1, name := "Ann", email := "a@b.co", department := "Eng",
    position := "Dev", created_at := "2024-01-01", tasks := none }

/-- A second sample employee. -/
def empB : Employee := { empA with id := 2, name := "Bob", email := "b@b.co" }

/-- The server response to editing `empA`. -/
def empAEdited : Employee := { empA with name := "Ann B" }

/-- A freshly created employee as returned by the server. -/
def empFresh : Employee := { empA with id := 3, name := "Cid", email := "c@b.co" }

/-- A form that passes every employee-form check. -/
def goodEmployeeForm : EmployeeFormData :=
  { name := "Ann", email := "a@b.co", department := "Eng", position := "Dev" }

/-- The same form with the email of the spec's failing example. -/
def badEmailForm : EmployeeFormData :=
  { goodEmployeeForm with email := "not-an-email" }

/-- A form that passes the task-form check. -/
def goodTaskForm : TaskFormData :=
  { title := "Write report", description := "", employee_id := none,
    due_date := none }

/-- A sample task-page state holding two tasks and no error banner. -/
def taskPage0 : TaskPageState := { tasks := [taskA, taskB], error := "" }

/-- A sample employee-page state holding two employees and no error banner. -/
def empPage0 : EmployeePageState := { employees := [empA, empB], error := "" }

/-- A sample application state that is not authenticated. -/
def appState0 : AppState :=
  { authenticated := false, browser := { token := none, location := "/" } }

/-- A sample rejected login response. -/
def loginFailure0 : HttpFailure :=
  { status := some 401, detail := some "Incorrect username or password" }

/-- A sample successful token response. -/
def tokenResponse0 : TokenResponse :=
  { access_token := "tok456", token_type := "bearer" }

/-! Helper lemmas shared by the claim theorems. -/

/-- The JavaScript fallback never produces the empty string when the fallback
literal is itself non-empty. -/
theorem jsStringOr_ne_empty (d : Option String) (fb : String) (hfb : fb ≠ "") :
    jsStringOr d fb ≠ "" := by
  cases d with
  | none => simpa [jsStringOr] using hfb
  | some s =>
      by_cases hs : s = ""
      · simpa [jsStringOr, hs] using hfb
      · simp [jsStringOr, hs]

/-- Mapping a function that fixes every element of a list leaves the list
unchanged. -/
theorem map_fixed_eq_self {α : Type} (f : α → α) :
    ∀ l : List α, (∀ a ∈ l, f a = a) → l.map f = l := by
  intro l h
  induction l with
  | nil => rfl
  | cons a as ih =>
      simp only [List.map_cons, h a (List.mem_cons_self a as)]
      rw [ih (fun x hx => h x (List.mem_cons_of_mem a hx))]

/-- In a list produced by replace-by-key mapping where the replacement
carries the key, every element carrying the key is the replacement. -/
theorem mem_map_replace_eq {α : Type} (idf : α → Nat) (tgt : Nat) (u : α)
    (hu : idf u = tgt) (l : List α) :
    ∀ x ∈ l.map (fun a => if idf a = tgt then u else a), idf x = idf u → x = u := by
  intro x hx hid
  rcases List.mem_map.1 hx with ⟨a, _, rfl⟩
  by_cases ha : idf a = tgt
  · simp [ha]
  · simp only [if_neg ha] at hid ⊢
    exact absurd (hid.trans hu) ha

/-! Claim theorems. -/

/-- C1: the set of status-transition buttons a task card shows is exactly a
function of the task status: a pending task shows only Start (requesting
`ongoing`), an ongoing task shows exactly Complete (requesting `completed`)
and Reset (requesting `pending`), and a completed task shows no transition
button. -/
theorem taskCardButtons_exactly_by_status :
    (∀ t : Task,
      taskCardButtons t =
        match t.status with
        | TaskStatus.pending => [TransitionButton.start]
        | TaskStatus.ongoing => [TransitionButton.complete, TransitionButton.reset]
        | TaskStatus.completed => []) ∧
    TransitionButton.target TransitionButton.start = TaskStatus.ongoing ∧
    TransitionButton.target TransitionButton.complete = TaskStatus.completed ∧
    TransitionButton.target TransitionButton.reset = TaskStatus.pending := by
  refine ⟨fun t => ?_, rfl, rfl, rfl⟩
  cases h : t.status <;> simp [taskCardButtons, h]

/-- C2: every response with HTTP status 401 seen by the intercepted client
removes the stored bearer token, forces navigation to the login route, and
ends in a rejected promise — the interceptor never re-issues the request. -/
theorem intercept_401_clears_token_and_redirects
    (status : Option Nat) (b : BrowserState) (h : status = some 401) :
    (interceptResponseError status b).1.token = none ∧
    (interceptResponseError status b).1.location = "/" ∧
    (interceptResponseError status b).2 = InterceptorOutcome.rejectPromise := by
  subst h
  simp [interceptResponseError]

/-- Witness for C2 at a concrete browser state holding a token. -/
theorem intercept_401_witness :
    (some 401 : Option Nat) = some 401 ∧
    ((interceptResponseError (some 401) browser0).1.token = none ∧
     (interceptResponseError (some 401) browser0).1.location = "/" ∧
     (interceptResponseError (some 401) browser0).2 = InterceptorOutcome.rejectPromise) :=
  ⟨rfl, intercept_401_clears_token_and_redirects (some 401) browser0 rfl⟩

/-- C6: a task status transition the server rejects leaves the local task
list — and hence every displayed status — untouched, and sets a non-empty
error banner; the embedding reconciles local state only from the server
response, so no mutation precedes it. -/
theorem status_update_failure_leaves_list
    (st : TaskPageState) (task : Task) (ns : TaskStatus) (d : Option String) :
    (handleStatusUpdate st task ns (Except.error d)).tasks = st.tasks ∧
    (handleStatusUpdate st task ns (Except.error d)).error ≠ "" :=
  ⟨rfl, jsStringOr_ne_empty d "Failed to update task status" (by decide)⟩

/-- Witness for C6 at a concrete page state and rejection detail. -/
theorem status_update_failure_witness :
    (handleStatusUpdate taskPage0 taskA TaskStatus.ongoing
        (Except.error (some "Task not found"))).tasks = taskPage0.tasks ∧
    (handleStatusUpdate taskPage0 taskA TaskStatus.ongoing
        (Except.error (some "Task not found"))).error ≠ "" :=
  status_update_failure_leaves_list taskPage0 taskA TaskStatus.ongoing
    (some "Task not found")

/-- C9: the login request bypasses the intercepted client, so a rejected
login — a 401 from the token endpoint included — leaves the browser state
(stored token and location) untouched and propagates the error, while a
successful login only writes the returned access token. -/
theorem bare_login_bypasses_interceptor
    (b : BrowserState) (e : HttpFailure) (d : Option String)
    (tr : TokenResponse) :
    ApiService.login b (Except.error e) = (b, Except.error e) ∧
    ApiService.login b (Except.error { status := some 401, detail := d }) =
      (b, Except.error { status := some 401, detail := d }) ∧
    (ApiService.login b (Except.ok tr)).1 =
      { b with token := some tr.access_token } :=
  ⟨rfl, rfl, rfl⟩

/-- C5: a confirmed delete whose server call succeeds leaves no entry with
the deleted entity's id in the local list (the list becomes the id-filtered
original); a confirmed delete whose server call fails leaves the list
unchanged and sets a non-empty page-level error, for employees and tasks
alike. -/
theorem delete_removes_entry_on_success_only
    (tps : TaskPageState) (eps : EmployeePageState) (task : Task)
    (emp : Employee) (d1 d2 : Option String) :
    ((handleDeleteTask true tps task (Except.ok ())).tasks =
        tps.tasks.filter (fun t => t.id ≠ task.id) ∧
     (∀ t ∈ (handleDeleteTask true tps task (Except.ok ())).tasks,
        t.id ≠ task.id) ∧
     (handleDeleteTask true tps task (Except.error d1)).tasks = tps.tasks ∧
     (handleDeleteTask true tps task (Except.error d1)).error ≠ "") ∧
    ((handleDeleteEmployee true eps emp (Except.ok ())).employees =
        eps.employees.filter (fun e => e.id ≠ emp.id) ∧
     (∀ e ∈ (handleDeleteEmployee true eps emp (Except.ok ())).employees,
        e.id ≠ emp.id) ∧
     (handleDeleteEmployee true eps emp (Except.error d2)).employees =
        eps.employees ∧
     (handleDeleteEmployee true eps emp (Except.error d2)).error ≠ "") := by
  refine ⟨⟨rfl, ?_, rfl, jsStringOr_ne_empty d1 _ (by decide)⟩,
          ⟨rfl, ?_, rfl, jsStringOr_ne_empty d2 _ (by decide)⟩⟩
  · intro t ht
    simpa using List.of_mem_filter ht
  · intro e he
    simpa using List.of_mem_filter he

/-- Witness for C5: deleting `taskA` from the sample page removes exactly its
entry, and a failed delete of `empA` keeps the employee list intact with an
error banner up. -/
theorem delete_witness :
    (handleDeleteTask true taskPage0 taskA (Except.ok ())).tasks =
      taskPage0.tasks.filter (fun t => t.id ≠ taskA.id) ∧
    (handleDeleteEmployee true empPage0 empA
        (Except.error (some "Employee not found"))).employees =
      empPage0.employees ∧
    (handleDeleteEmployee true empPage0 empA
        (Except.error (some "Employee not found"))).error ≠ "" := by
  have h := delete_removes_entry_on_success_only taskPage0 empPage0 taskA empA
    none (some "Employee not found")
  exact ⟨h.1.1, h.2.2.2.1, h.2.2.2.2⟩

/-- C7: a failed login leaves the session exactly as it was — in particular
`authenticated` stays false when it was false and the stored token is not
written — and propagates the error to the caller; a successful login sets
`authenticated` and stores the returned access token. -/
theorem login_failure_preserves_session
    (st : AppState) (e : HttpFailure) (tr : TokenResponse)
    (hAuth : st.authenticated = false) :
    AuthProvider.login st (Except.error e) = (st, Except.error e) ∧
    (AuthProvider.login st (Except.error e)).1.authenticated = false ∧
    (AuthProvider.login st (Except.error e)).1.browser.token =
      st.browser.token ∧
    (AuthProvider.login st (Except.ok tr)).1.authenticated = true ∧
    (AuthProvider.login st (Except.ok tr)).1.browser.token =
      some tr.access_token :=
  ⟨rfl, hAuth, rfl, rfl, rfl⟩

/-- Witness for C7 at an anonymous session, a rejected credential check and a
successful one. -/
theorem login_witness :
    appState0.authenticated = false ∧
    AuthProvider.login appState0 (Except.error loginFailure0) =
      (appState0, Except.error loginFailure0) ∧
    (AuthProvider.login appState0 (Except.ok tokenResponse0)).1.browser.token =
      some tokenResponse0.access_token := by
  have h := login_failure_preserves_session appState0 loginFailure0
    tokenResponse0 (by decide)
  exact ⟨by decide, h.1, h.2.2.2.2⟩

/-- C3: a successful update — employee field edit, task field edit, or task
status transition — keeps the local list length unchanged, and every entry
carrying the updated entity's id equals the server-returned entity. -/
theorem update_keeps_length_and_matches_response
    (tps : TaskPageState) (eps : EmployeePageState)
    (tgtTask : Task) (ns : TaskStatus) (updated : Task)
    (etask : Task) (tform : TaskFormData) (tret : Task)
    (eemp : Employee) (eform : EmployeeFormData) (eret : Employee)
    (hUpd : updated.id = tgtTask.id)
    (hTForm : taskFormValid tform = true) (hTId : tret.id = etask.id)
    (hEForm : employeeFormValid eform = true) (hEId : eret.id = eemp.id) :
    ((handleStatusUpdate tps tgtTask ns (Except.ok updated)).tasks.length =
        tps.tasks.length ∧
     (∀ t ∈ (handleStatusUpdate tps tgtTask ns (Except.ok updated)).tasks,
        t.id = updated.id → t = updated)) ∧
    ((TaskPage.handleSubmit tps (some etask) tform (Except.ok tret)).tasks.length =
        tps.tasks.length ∧
     (∀ t ∈ (TaskPage.handleSubmit tps (some etask) tform (Except.ok tret)).tasks,
        t.id = tret.id → t = tret)) ∧
    ((EmployeePage.handleSubmit eps (some eemp) eform (Except.ok eret)).employees.length =
        eps.employees.length ∧
     (∀ e ∈ (EmployeePage.handleSubmit eps (some eemp) eform (Except.ok eret)).employees,
        e.id = eret.id → e = eret)) := by
  have hts : (TaskPage.handleSubmit tps (some etask) tform (Except.ok tret)).tasks =
      tps.tasks.map (fun t => if t.id = etask.id then tret else t) := by
    simp [TaskPage.handleSubmit, hTForm]
  have hes : (EmployeePage.handleSubmit eps (some eemp) eform (Except.ok eret)).employees =
      eps.employees.map (fun e => if e.id = eemp.id then eret else e) := by
    simp [EmployeePage.handleSubmit, hEForm]
  refine ⟨⟨?_, ?_⟩, ⟨?_, ?_⟩, ⟨?_, ?_⟩⟩
  · simp [handleStatusUpdate]
  · exact mem_map_replace_eq Task.id tgtTask.id updated hUpd tps.tasks
  · simp [hts]
  · intro t ht hid
    rw [hts] at ht
    exact mem_map_replace_eq Task.id etask.id tret hTId tps.tasks t ht hid
  · simp [hes]
  · intro e he hid
    rw [hes] at he
    exact mem_map_replace_eq Employee.id eemp.id eret hEId eps.employees e he hid

/-- Witness for C3 at concrete lists, forms and server responses. -/
theorem update_witness :
    taskAStarted.id = taskA.id ∧ taskFormValid goodTaskForm = true ∧
    taskBEdited.id = taskB.id ∧ employeeFormValid goodEmployeeForm = true ∧
    empAEdited.id = empA.id ∧
    (handleStatusUpdate taskPage0 taskA TaskStatus.ongoing
        (Except.ok taskAStarted)).tasks.length = taskPage0.tasks.length := by
  have h := update_keeps_length_and_matches_response taskPage0 empPage0
    taskA TaskStatus.ongoing taskAStarted taskB goodTaskForm taskBEdited
    empA goodEmployeeForm empAEdited
    (by decide) (by decide) (by decide) (by decide) (by decide)
  exact ⟨by decide, by decide, by decide, by decide, by decide, h.1.1⟩

/-- C4: a successful create appends the server-returned entity to the local
list: the list is the old one with the new entity at the end, so it gains
exactly one entry, its last entry is the new entity, and the pre-existing
prefix is unchanged — for employees and tasks alike. -/
theorem create_appends_server_entity
    (tps : TaskPageState) (eps : EmployeePageState)
    (tform : TaskFormData) (tret : Task)
    (eform : EmployeeFormData) (eret : Employee)
    (hTForm : taskFormValid tform = true)
    (hEForm : employeeFormValid eform = true) :
    ((TaskPage.handleSubmit tps none tform (Except.ok tret)).tasks =
        tps.tasks ++ [tret] ∧
     (TaskPage.handleSubmit tps none tform (Except.ok tret)).tasks.length =
        tps.tasks.length + 1 ∧
     (TaskPage.handleSubmit tps none tform (Except.ok tret)).tasks.getLast? =
        some tret ∧
     (TaskPage.handleSubmit tps none tform (Except.ok tret)).tasks.take
        tps.tasks.length = tps.tasks) ∧
    ((EmployeePage.handleSubmit eps none eform (Except.ok eret)).employees =
        eps.employees ++ [eret] ∧
     (EmployeePage.handleSubmit eps none eform (Except.ok eret)).employees.length =
        eps.employees.length + 1 ∧
     (EmployeePage.handleSubmit eps none eform (Except.ok eret)).employees.getLast? =
        some eret ∧
     (EmployeePage.handleSubmit eps none eform (Except.ok eret)).employees.take
        eps.employees.length = eps.employees) := by
  have h1 : (TaskPage.handleSubmit tps none tform (Except.ok tret)).tasks =
      tps.tasks ++ [tret] := by
    simp [TaskPage.handleSubmit, hTForm]
  have h2 : (EmployeePage.handleSubmit eps none eform (Except.ok eret)).employees =
      eps.employees ++ [eret] := by
    simp [EmployeePage.handleSubmit, hEForm]
  refine ⟨⟨h1, ?_, ?_, ?_⟩, ⟨h2, ?_, ?_, ?_⟩⟩ <;> simp [h1, h2]

/-- Witness for C4 at concrete lists, valid forms and fresh entities. -/
theorem create_witness :
    taskFormValid goodTaskForm = true ∧
    employeeFormValid goodEmployeeForm = true ∧
    (TaskPage.handleSubmit taskPage0 none goodTaskForm
        (Except.ok taskFresh)).tasks = taskPage0.tasks ++ [taskFresh] := by
  have h := create_appends_server_entity taskPage0 empPage0 goodTaskForm
    taskFresh goodEmployeeForm empFresh (by decide) (by decide)
  exact ⟨by decide, by decide, h.1.1⟩

/-- C8: for a non-empty trimmed email the employee-form email check passes
exactly when the loose containment regex matches; the string of the failing
example yields the inline error and an invalid form whose submission is
blocked (the page state is returned untouched), while the passing example
yields a valid form. -/
theorem email_validation_loose_shape
    (f : EmployeeFormData) (h : jsTrim f.email ≠ "") :
    ((validateEmployeeForm f).email = none ↔ emailRegexTest f.email = true) ∧
    (validateEmployeeForm badEmailForm).email = some "Invalid email format" ∧
    employeeFormValid badEmailForm = false ∧
    EmployeePage.handleSubmit empPage0 none badEmailForm
      (Except.ok empFresh) = empPage0 ∧
    employeeFormValid goodEmployeeForm = true := by
  refine ⟨?_, by decide, by decide, by decide, by decide⟩
  have hv : (validateEmployeeForm f).email =
      if ¬ emailRegexTest f.email then some "Invalid email format" else none := by
    simp [validateEmployeeForm, h]
  rw [hv]
  by_cases ht : emailRegexTest f.email <;> simp [ht]

/-- Witness for C8 at the passing example email. -/
theorem email_validation_witness :
    jsTrim goodEmployeeForm.email ≠ "" ∧
    ((validateEmployeeForm goodEmployeeForm).email = none ↔
      emailRegexTest goodEmployeeForm.email = true) :=
  ⟨by decide, (email_validation_loose_shape goodEmployeeForm (by decide)).1⟩

/-- C10: update reconciliation matches entries against the id of the entity
being edited, captured before the request: positionally, each entry carrying
the target id becomes the server-returned entity — even when that entity's
id differs from the target — and all others stay; when no entry carries the
target id the list is unchanged; the length is preserved in every case. -/
theorem update_matches_target_id
    (tps : TaskPageState) (eps : EmployeePageState)
    (task updated : Task) (ns : TaskStatus)
    (eemp eret : Employee) (eform : EmployeeFormData)
    (hEForm : employeeFormValid eform = true) :
    ((handleStatusUpdate tps task ns (Except.ok updated)).tasks.length =
        tps.tasks.length ∧
     (∀ n : Nat, (handleStatusUpdate tps task ns (Except.ok updated)).tasks[n]? =
        tps.tasks[n]?.map (fun t => if t.id = task.id then updated else t)) ∧
     ((∀ t ∈ tps.tasks, t.id ≠ task.id) →
        (handleStatusUpdate tps task ns (Except.ok updated)).tasks = tps.tasks)) ∧
    ((EmployeePage.handleSubmit eps (some eemp) eform (Except.ok eret)).employees.length =
        eps.employees.length ∧
     (∀ n : Nat, (EmployeePage.handleSubmit eps (some eemp) eform (Except.ok eret)).employees[n]? =
        eps.employees[n]?.map (fun e => if e.id = eemp.id then eret else e)) ∧
     ((∀ e ∈ eps.employees, e.id ≠ eemp.id) →
        (EmployeePage.handleSubmit eps (some eemp) eform (Except.ok eret)).employees =
          eps.employees)) := by
  have hes : (EmployeePage.handleSubmit eps (some eemp) eform (Except.ok eret)).employees =
      eps.employees.map (fun e => if e.id = eemp.id then eret else e) := by
    simp [EmployeePage.handleSubmit, hEForm]
  refine ⟨⟨?_, ?_, ?_⟩, ⟨?_, ?_, ?_⟩⟩
  · simp [handleStatusUpdate]
  · intro n
    exact List.getElem?_map ..
  · intro hno
    exact map_fixed_eq_self _ tps.tasks (fun a ha => if_neg (hno a ha))
  · simp [hes]
  · intro n
    rw [hes]
    exact List.getElem?_map ..
  · intro hno
    rw [hes]
    exact map_fixed_eq_self _ eps.employees (fun a ha => if_neg (hno a ha))

/-- Witness for C10: a server response whose id (42) differs from the target
id still lands at the target's position, and editing against a target id
absent from the list leaves the employee list unchanged. -/
theorem target_id_witness :
    employeeFormValid goodEmployeeForm = true ∧
    (handleStatusUpdate taskPage0 taskA TaskStatus.ongoing
        (Except.ok taskRenumbered)).tasks[0]? = some taskRenumbered ∧
    (EmployeePage.handleSubmit empPage0 (some empFresh) goodEmployeeForm
        (Except.ok empAEdited)).employees = empPage0.employees := by
  have h := update_matches_target_id taskPage0 empPage0 taskA taskRenumbered
    TaskStatus.ongoing empFresh empAEdited goodEmployeeForm (by decide)
  refine ⟨by decide, ?_, h.2.2.2 (by decide)⟩
  rw [h.1.2.1 0]
  decide

end EmpTaskMngr
